import Mathlib

/-!
Shallow embedding of the Aeroflow round engine
(`src/.streamlit/aeroflow_app.py`).

The Python module keeps all game state in `st.session_state`; here that
state is the `GameState` structure, and every session-state-mutating
function becomes a pure function from `GameState` to `GameState` (or
`Option GameState` where the Python code can raise `KeyError`).
Randomness (`random.randint`, `random.random() < p`) is made explicit:
each call of `record` receives a `Draw` carrying the integer drawn by
`randint` and the Boolean outcome of the probability roll; `random.sample`
for the event deck is represented by an explicit list of drawn indices.
-/

namespace Aeroflow

/-! ### CONFIG (lines 5-33 of the source) -/

def ROLE0 : String := "Airport Operations"
def ROLE1 : String := "Airline Control Center"
def ROLE2 : String := "Aircraft Maintenance"

def ROLES : List String := [ROLE0, ROLE1, ROLE2]

def ROUNDS : Nat := 5
def TARGET_MIN : Int := 45
def FINE_PER_MIN : Int := 100

def GATE_PVT : Nat := 10
def GATE_SHR : Nat := 10
def CREW_NB : Nat := 30
def CREW_B10 : Nat := 40
def MX_FIX : Nat := 20
def MX_DEF : Nat := 0

def GATE_FEE : Nat := 500
def MX_FIX_COST : Nat := 300
def MX_PENALTY : Nat := 1000

def EVENT_CARDS : List (String × Nat) :=
  [("Wildlife on the runway - bird hazard.", 8),
   ("Fuel truck stuck in traffic - stand blocked.", 12),
   ("Half the ramp crew called in sick - slow loading.", 9),
   ("Snow squall - extra de-icing.", 15),
   ("Baggage belt jam - bags everywhere.", 7),
   ("Gate power outage - stand dark.", 10),
   ("Catering cart spills tomato soup on luggage.", 6),
   ("Lightning overhead - ground ops paused.", 11)]

/-! ### Data model

One row of a role's ledger DataFrame (the `Round` column is the list
index plus one and is never consulted by the logic, so it is omitted). -/

structure RoundRecord where
  decision : String
  duration : Nat
  cost : Nat
  note : String
deriving Repr, DecidableEq

/-- A timeline-board row `[role, start, end]`. -/
abbrev BoardRow := String × Nat × Nat

abbrev Board := List BoardRow

/-- The whole of `st.session_state`: `data` is the dict from role name to
ledger (modelled as an association list, preserving `KeyError` on a
missing key), `events` the drawn event cards, `timeline` the per-round
boards (`none` = the Python `None`), `round` the 1-based current round,
`rolePick` the remembered role selection. -/
structure GameState where
  data : List (String × List RoundRecord)
  events : List (String × Nat)
  timeline : List (Option Board)
  round : Nat
  rolePick : String
deriving Repr, DecidableEq

/-- The two random quantities a single `record` call can consume: the
result of the branch's `random.randint(..)` and whether the branch's
`random.random() < p` test came out true. -/
structure Draw where
  extra : Nat
  roll : Bool
deriving Repr, DecidableEq

/-! ### init_state (lines 36-51) -/

/-- The undecided sentinel row of a freshly initialised ledger. -/
def initRecord : RoundRecord := ⟨"-", 0, 0, ""⟩

def initTable : List RoundRecord := List.replicate ROUNDS initRecord

/-- `random.sample(EVENT_CARDS, ROUNDS)` yields the cards at some list of
distinct deck indices; the indices are the explicit randomness. -/
def sampleEvents (picks : List Nat) : List (String × Nat) :=
  picks.map (fun i => EVENT_CARDS.getD i ("", 0))

def initState (events : List (String × Nat)) : GameState :=
  { data := ROLES.map (fun r => (r, initTable)),
    events := events,
    timeline := List.replicate ROUNDS none,
    round := 1,
    rolePick := ROLE0 }

/-- "Reset Game" (lines 224-226) deletes every session-state key and
reruns the script, so `init_state` rebuilds the initial state with a
freshly sampled event sequence. -/
def resetGame (picks : List Nat) : GameState :=
  initState (sampleEvents picks)

/-! ### Helpers for reading the state -/

def tableOf (s : GameState) (r : String) : Option (List RoundRecord) :=
  s.data.lookup r

def rowAt (s : GameState) (r : String) (idx : Nat) : Option RoundRecord :=
  (tableOf s r).bind (fun t => t[idx]?)

def decisionAt (s : GameState) (r : String) (idx : Nat) : Option String :=
  (rowAt s r idx).map (·.decision)

def durationAt (s : GameState) (r : String) (idx : Nat) : Option Nat :=
  (rowAt s r idx).map (·.duration)

def costAt (s : GameState) (r : String) (idx : Nat) : Option Nat :=
  (rowAt s r idx).map (·.cost)

def noteAt (s : GameState) (r : String) (idx : Nat) : Option String :=
  (rowAt s r idx).map (·.note)

/-- Python's `"needle" in haystack` substring test. -/
def listStarts : List Char → List Char → Bool
  | [], _ => true
  | _ :: _, [] => false
  | p :: ps, h :: hs => p == h && listStarts ps hs

def strContainsAux (pat : List Char) : List Char → Bool
  | [] => listStarts pat []
  | h :: hs => listStarts pat (h :: hs) || strContainsAux pat hs

def strContains (hay pat : String) : Bool :=
  strContainsAux pat.toList hay.toList

/-! ### everyone_done (lines 54-55) -/

def everyoneDone (s : GameState) (idx : Nat) : Bool :=
  ROLES.all fun r => (decisionAt s r idx).getD "-" != "-"

/-! ### build_timeline (lines 57-65) -/

/-- The loop body of `build_timeline`: walk the roles accumulating
`start`, where the event delay is added to the first role only. -/
def rowsAux (f : String → Nat) (delay : Nat) : List String → Nat → Board
  | [], _ => []
  | role :: rest, start =>
    let e := start + f role + (if role == ROLE0 then delay else 0)
    (role, start, e) :: rowsAux f delay rest e

def rowsFrom (f : String → Nat) (delay : Nat) : Board :=
  rowsAux f delay ROLES 0

/-- `st.session_state.data[role].loc[idx,"Duration"]`. -/
def durOf (s : GameState) (idx : Nat) (role : String) : Nat :=
  (durationAt s role idx).getD 0

def buildTimeline (s : GameState) (idx : Nat) : GameState :=
  let delay := (s.events.getD idx ("", 0)).2
  { s with timeline := s.timeline.set idx (some (rowsFrom (durOf s idx) delay)) }

/-! ### record (lines 67-94) -/

/-- The decision → (duration, cost, note) computation of `record`,
branching exactly as the source does: the role is compared against
`ROLES[0]` and `ROLES[1]`, the choice is tested for a substring
(`"Dedicated" in choice` etc.), and any other choice string falls into
the second option's branch. -/
def applyChoice (role choice : String) (d : Draw) : Nat × Nat × String :=
  if role == ROLE0 then
    if strContains choice "Dedicated" then
      (GATE_PVT, GATE_FEE, "Reserved stand")
    else
      (GATE_SHR + (if d.roll then d.extra else 0), 0,
        "Shared stand" ++ (if d.roll then " +" ++ toString d.extra ++ " wait" else ""))
  else if role == ROLE1 then
    if strContains choice "Quick" then
      (CREW_NB + (if d.roll then d.extra else 0), 0,
        "Quick swap" ++ (if d.roll then " +" ++ toString d.extra else ""))
    else
      (CREW_B10, 0, "Buffered swap")
  else
    if strContains choice "Fix Now" then
      (MX_FIX, MX_FIX_COST, "Immediate fix")
    else
      (MX_DEF, (if d.roll then MX_PENALTY else 0),
        "Deferred" ++ (if d.roll then " penalty 1000" else ""))

/-- Dict-style update of `st.session_state.data[role]` (the source
mutates the looked-up DataFrame in place; here the association list gets
the new ledger at that key). -/
def updateAssoc : List (String × List RoundRecord) → String → List RoundRecord →
    List (String × List RoundRecord)
  | [], _, _ => []
  | p :: t, k, v => (if p.1 = k then (k, v) else p) :: updateAssoc t k v

/-- The state after the `df.loc[idx, ...] = [choice,dur,cost,note]` write,
given the looked-up ledger `df`. -/
def writeState (s : GameState) (role : String) (idx : Nat) (choice : String)
    (d : Draw) (df : List RoundRecord) : GameState :=
  let dcn := applyChoice role choice d
  { s with data := updateAssoc s.data role (df.set idx ⟨choice, dcn.1, dcn.2.1, dcn.2.2⟩) }

/-- `record(role, idx, choice)`: `none` models the `KeyError` raised by
`st.session_state.data[role]` on an unknown role (raised before any
mutation). After the ledger write, if all three roles have decided for
`idx`, the timeline is built, the round pointer advances to
`min(idx+2, ROUNDS)` and the role picker resets. -/
def record (s : GameState) (role : String) (idx : Nat) (choice : String)
    (d : Draw) : Option GameState :=
  match s.data.lookup role with
  | none => none
  | some df =>
    let s2 := writeState s role idx choice d df
    if everyoneDone s2 idx then
      let s3 := buildTimeline s2 idx
      some { s3 with round := min (idx + 2) ROUNDS, rolePick := ROLE0 }
    else
      some s2

/-! ### compute_time_fines (lines 96-104) and friends -/

/-- `df["End"].max()` over a board. -/
def boardEnd (b : Board) : Nat :=
  (b.map (fun r => r.2.2)).foldl max 0

/-- One round's contribution `max(end-TARGET_MIN,0)*FINE_PER_MIN`. -/
def boardFine (b : Board) : Int :=
  max ((boardEnd b : Int) - TARGET_MIN) 0 * FINE_PER_MIN

/-- The loop of `compute_time_fines`: accumulate round fines in ascending
order, `break`-ing at the first `None` board. -/
def finesAux : List (Option Board) → Int
  | [] => 0
  | none :: _ => 0
  | some b :: rest => boardFine b + finesAux rest

def computeTimeFines (s : GameState) (upto : Option Nat) : Int :=
  let last := upto.getD s.timeline.length
  finesAux (s.timeline.take last)

/-! ### Play-tab wiring (lines 158-235) -/

/-- `finished = all(df is not None for df in st.session_state.timeline)`. -/
def finished (s : GameState) : Bool :=
  s.timeline.all Option.isSome

/-- `option_labels(role)` (lines 115-123). -/
def optionLabels (role : String) : String × String :=
  if role == ROLE0 then
    ("AODB: Dedicated Stand ($500 - gate always available)",
     "AODB: Shared Stand (free - 50 % risk +5-20 min)")
  else if role == ROLE1 then
    ("CRS: Quick Crew Swap (30 min - 40 % risk +5-25 min)",
     "CRS: Buffered Crew Swap (40 min - guaranteed on-time)")
  else
    ("MEL: Fix Now (+20 min, $300)",
     "MEL: Defer (0 min - 40 % risk $1,000)")

/-- The radio button offers exactly the two labels; `first` selects the
first of the pair. -/
def labelOf (role : String) (first : Bool) : String :=
  if first then (optionLabels role).1 else (optionLabels role).2

/-- The submission path of the Play tab (lines 199-205): `record` is
invoked with `idx = round-1` only when that role's decision cell still
holds the sentinel `"-"`; otherwise the tab shows "Decision already
submitted." and performs no state change (`none`). -/
def submitDecision (s : GameState) (role : String) (first : Bool)
    (d : Draw) : Option GameState :=
  if (decisionAt s role (s.round - 1)).getD "" == "-" then
    record s role (s.round - 1) (labelOf role first) d
  else
    none

/-- "Next Flight" instructor control (lines 220-223). -/
def nextFlight (s : GameState) : GameState :=
  { s with round := min (s.round + 1) ROUNDS, rolePick := ROLE0 }

/-- Per-role rows of the end-of-game summary table (lines 228-235):
`(role, immediate cost, time fines, total)`, where the time-fines
expression is the same full team total for every role. -/
def roleCostSum (s : GameState) (r : String) : Nat :=
  ((tableOf s r).getD []).foldl (fun a rec => a + rec.cost) 0

def teamFinesAll (s : GameState) : Int :=
  ((List.range ROUNDS).map
    (fun i => boardFine (((s.timeline.getD i none).getD [])))).sum

def summaryRows (s : GameState) : List (String × Nat × Int × Int) :=
  ROLES.map fun r =>
    let imm := roleCostSum s r
    let tf := teamFinesAll s
    (r, imm, tf, (imm : Int) + tf)

/-! ### Concrete states used by witnesses -/

def picks0 : List Nat := [0, 1, 2, 3, 4]

/-- A concrete freshly initialised session (deck indices 0..4 drawn). -/
def s0 : GameState := initState (sampleEvents picks0)

/-! ### Board accessors used by the theorems -/

def entryStart (b : Board) (i : Nat) : Nat := (b.getD i ("", 0, 0)).2.1

def entryEnd (b : Board) (i : Nat) : Nat := (b.getD i ("", 0, 0)).2.2

theorem rowsFrom_eq (f : String → Nat) (delay : Nat) :
    rowsFrom f delay =
      [(ROLE0, 0, f ROLE0 + delay),
       (ROLE1, f ROLE0 + delay, f ROLE0 + delay + f ROLE1),
       (ROLE2, f ROLE0 + delay + f ROLE1, f ROLE0 + delay + f ROLE1 + f ROLE2)] := by
  have h1 : (ROLE1 == ROLE0) = false := by decide
  have h2 : (ROLE2 == ROLE0) = false := by decide
  simp [rowsFrom, ROLES, rowsAux, h1, h2]

end Aeroflow

/-- C1: every computed TimelineBoard lists the three roles in the fixed
order, starts at minute 0, is contiguous (each entry starts where the
previous one ends), adds the event delay to the first role's segment
only, and ends at the sum of the three durations plus the delay. -/
theorem C1_timeline_contiguous_total (f : String → Nat) (delay : Nat) :
    (Aeroflow.rowsFrom f delay).map Prod.fst = Aeroflow.ROLES ∧
    (Aeroflow.rowsFrom f delay).length = 3 ∧
    Aeroflow.entryStart (Aeroflow.rowsFrom f delay) 0 = 0 ∧
    Aeroflow.entryStart (Aeroflow.rowsFrom f delay) 1 =
      Aeroflow.entryEnd (Aeroflow.rowsFrom f delay) 0 ∧
    Aeroflow.entryStart (Aeroflow.rowsFrom f delay) 2 =
      Aeroflow.entryEnd (Aeroflow.rowsFrom f delay) 1 ∧
    Aeroflow.entryEnd (Aeroflow.rowsFrom f delay) 0 = f Aeroflow.ROLE0 + delay ∧
    Aeroflow.entryEnd (Aeroflow.rowsFrom f delay) 2 =
      f Aeroflow.ROLE0 + f Aeroflow.ROLE1 + f Aeroflow.ROLE2 + delay := by
  rw [Aeroflow.rowsFrom_eq]
  refine ⟨by simp [Aeroflow.ROLES], by simp, ?_, ?_, ?_, ?_, ?_⟩ <;>
    (simp [Aeroflow.entryStart, Aeroflow.entryEnd]; try omega)

/-- C2: a round's fine is zero when the board's final end minute is at
most 45, and `(end - 45) * 100` otherwise (defaults `TARGET_MIN = 45`,
`FINE_PER_MIN = 100`). -/
theorem C2_fine_formula (b : Aeroflow.Board) :
    Aeroflow.boardFine b =
      if Aeroflow.boardEnd b ≤ 45 then 0
      else ((Aeroflow.boardEnd b : Int) - 45) * 100 := by
  by_cases h : Aeroflow.boardEnd b ≤ 45
  · have hx : ((Aeroflow.boardEnd b : Int) - 45) ≤ 0 := by omega
    simp [Aeroflow.boardFine, Aeroflow.TARGET_MIN, Aeroflow.FINE_PER_MIN, h,
      max_eq_right hx]
  · have hx : (0 : Int) ≤ (Aeroflow.boardEnd b : Int) - 45 := by omega
    simp [Aeroflow.boardFine, Aeroflow.TARGET_MIN, Aeroflow.FINE_PER_MIN, h,
      max_eq_left hx]

/-- C3 counterexample: submitting the Shared Gate option when the clash
occurs and `randint(5,20)` returns 7 records a duration of 10 + 7 = 17
minutes, not the claimed fixed 10 + 10: the clash increment is a drawn
amount, not a fixed +10. -/
theorem C3_counterexample :
    ((Aeroflow.record Aeroflow.s0 Aeroflow.ROLE0 0
        "AODB: Shared Stand (free - 50 % risk +5-20 min)" ⟨7, true⟩).bind
      (fun s => Aeroflow.durationAt s Aeroflow.ROLE0 0)) = some 17 ∧
    (17 : Nat) ≠ Aeroflow.GATE_SHR + 10 := by
  exact ⟨rfl, by decide⟩

/-- C3 (amended): the Shared Gate option costs nothing and lasts the
10-minute base plus, when the 50% clash roll hits, the amount drawn by
`randint(5,20)`; the Quick Crew Swap (No Buffer) option lasts the
30-minute base plus, when the 40% late-crew roll hits, the amount drawn
by `randint(5,25)`. The risk increments are randomized ranges, not the
fixed +10 / +15 amounts the claim states. -/
theorem C3_amended_risk_ranges (choiceG choiceC : String) (e : Nat) (roll : Bool)
    (hg : Aeroflow.strContains choiceG "Dedicated" = false)
    (hc : Aeroflow.strContains choiceC "Quick" = true) :
    (Aeroflow.applyChoice Aeroflow.ROLE0 choiceG ⟨e, true⟩).1 =
      Aeroflow.GATE_SHR + e ∧
    (Aeroflow.applyChoice Aeroflow.ROLE0 choiceG ⟨e, false⟩).1 = Aeroflow.GATE_SHR ∧
    (Aeroflow.applyChoice Aeroflow.ROLE0 choiceG ⟨e, roll⟩).2.1 = 0 ∧
    (Aeroflow.applyChoice Aeroflow.ROLE1 choiceC ⟨e, true⟩).1 =
      Aeroflow.CREW_NB + e ∧
    (Aeroflow.applyChoice Aeroflow.ROLE1 choiceC ⟨e, false⟩).1 = Aeroflow.CREW_NB ∧
    (Aeroflow.applyChoice Aeroflow.ROLE1 choiceC ⟨e, roll⟩).2.1 = 0 ∧
    Aeroflow.GATE_SHR = 10 ∧ Aeroflow.CREW_NB = 30 := by
  have h10 : (Aeroflow.ROLE1 == Aeroflow.ROLE0) = false := by decide
  refine ⟨?_, ?_, ?_, ?_, ?_, ?_, rfl, rfl⟩ <;>
    simp [Aeroflow.applyChoice, hg, hc, h10]

/-- Witness for the amended C3 at the concrete labels with draw 12 and
the risk roll landing. -/
theorem C3_amended_witness :
    (Aeroflow.applyChoice Aeroflow.ROLE0
        "AODB: Shared Stand (free - 50 % risk +5-20 min)" ⟨12, true⟩).1 =
      Aeroflow.GATE_SHR + 12 ∧
    (Aeroflow.applyChoice Aeroflow.ROLE0
        "AODB: Shared Stand (free - 50 % risk +5-20 min)" ⟨12, false⟩).1 =
      Aeroflow.GATE_SHR ∧
    (Aeroflow.applyChoice Aeroflow.ROLE0
        "AODB: Shared Stand (free - 50 % risk +5-20 min)" ⟨12, true⟩).2.1 = 0 ∧
    (Aeroflow.applyChoice Aeroflow.ROLE1
        "CRS: Quick Crew Swap (30 min - 40 % risk +5-25 min)" ⟨12, true⟩).1 =
      Aeroflow.CREW_NB + 12 ∧
    (Aeroflow.applyChoice Aeroflow.ROLE1
        "CRS: Quick Crew Swap (30 min - 40 % risk +5-25 min)" ⟨12, false⟩).1 =
      Aeroflow.CREW_NB ∧
    (Aeroflow.applyChoice Aeroflow.ROLE1
        "CRS: Quick Crew Swap (30 min - 40 % risk +5-25 min)" ⟨12, true⟩).2.1 = 0 ∧
    Aeroflow.GATE_SHR = 10 ∧ Aeroflow.CREW_NB = 30 :=
  C3_amended_risk_ranges
    "AODB: Shared Stand (free - 50 % risk +5-20 min)"
    "CRS: Quick Crew Swap (30 min - 40 % risk +5-25 min)"
    12 true (by decide) (by decide)

namespace Aeroflow

/-! ### Support lemmas on the ledger dictionary -/

theorem lookup_cons_eq (a : String) (p : String × List RoundRecord)
    (t : List (String × List RoundRecord)) :
    List.lookup a (p :: t) = if a = p.1 then some p.2 else List.lookup a t := by
  by_cases h : a = p.1
  · have hb : (a == p.1) = true := by simp [h]
    simp [List.lookup, hb, h]
  · have hb : (a == p.1) = false := beq_eq_false_iff_ne.mpr h
    simp [List.lookup, hb, h]

theorem lookup_updateAssoc_self (l : List (String × List RoundRecord))
    (k : String) (v : List RoundRecord) :
    (updateAssoc l k v).lookup k = (l.lookup k).map (fun _ => v) := by
  induction l with
  | nil => rfl
  | cons p t ih =>
    simp only [updateAssoc]
    by_cases h : p.1 = k
    · rw [if_pos h, lookup_cons_eq, lookup_cons_eq]
      simp [h]
    · rw [if_neg h, lookup_cons_eq, lookup_cons_eq]
      simp [Ne.symm h, ih]

theorem lookup_updateAssoc_ne (l : List (String × List RoundRecord))
    (k k' : String) (v : List RoundRecord) (h : k' ≠ k) :
    (updateAssoc l k v).lookup k' = l.lookup k' := by
  induction l with
  | nil => rfl
  | cons p t ih =>
    simp only [updateAssoc]
    by_cases hp : p.1 = k
    · rw [if_pos hp, lookup_cons_eq, lookup_cons_eq]
      simp [h, hp, ih]
    · rw [if_neg hp, lookup_cons_eq, lookup_cons_eq]
      simp [ih]

theorem rowAt_writeState_self (s : GameState) (role : String) (idx : Nat)
    (choice : String) (d : Draw) (df : List RoundRecord)
    (hdf : s.data.lookup role = some df) (hidx : idx < df.length) :
    rowAt (writeState s role idx choice d df) role idx =
      some ⟨choice, (applyChoice role choice d).1,
            (applyChoice role choice d).2.1, (applyChoice role choice d).2.2⟩ := by
  simp [rowAt, tableOf, writeState, lookup_updateAssoc_self, hdf,
    List.getElem?_set, hidx]

/-- Unfolding of `record` once the role lookup has succeeded. -/
theorem record_eq (s : GameState) (role : String) (idx : Nat) (choice : String)
    (d : Draw) (df : List RoundRecord) (hdf : s.data.lookup role = some df) :
    record s role idx choice d =
      some (if everyoneDone (writeState s role idx choice d df) idx
            then { buildTimeline (writeState s role idx choice d df) idx with
                   round := min (idx + 2) ROUNDS, rolePick := ROLE0 }
            else writeState s role idx choice d df) := by
  simp only [record, hdf]
  by_cases h : everyoneDone (writeState s role idx choice d df) idx <;> simp [h]

/-- Whatever the completion branch does, the ledger data after `record`
is the data written by `writeState`. -/
theorem record_data_eq (s : GameState) (role : String) (idx : Nat)
    (choice : String) (d : Draw) (df : List RoundRecord)
    (hdf : s.data.lookup role = some df) :
    (record s role idx choice d).map GameState.data =
      some (writeState s role idx choice d df).data := by
  rw [record_eq s role idx choice d df hdf]
  by_cases h : everyoneDone (writeState s role idx choice d df) idx <;>
    simp [h, buildTimeline]

theorem rowAt_congr (s u : GameState) (h : s.data = u.data) (r : String)
    (idx : Nat) : rowAt s r idx = rowAt u r idx := by
  simp [rowAt, tableOf, h]

/-- A successful `record` always leaves, at the submitted role and round,
exactly the row computed from the choice and the draw. -/
theorem rowAt_record (s : GameState) (role : String) (idx : Nat)
    (choice : String) (d : Draw) (df : List RoundRecord)
    (hdf : s.data.lookup role = some df) (hidx : idx < df.length) :
    (record s role idx choice d).bind (fun u => rowAt u role idx) =
      some ⟨choice, (applyChoice role choice d).1,
            (applyChoice role choice d).2.1, (applyChoice role choice d).2.2⟩ := by
  rw [record_eq s role idx choice d df hdf, Option.some_bind]
  have hdata : (if everyoneDone (writeState s role idx choice d df) idx
      then { buildTimeline (writeState s role idx choice d df) idx with
             round := min (idx + 2) ROUNDS, rolePick := ROLE0 }
      else writeState s role idx choice d df).data =
      (writeState s role idx choice d df).data := by
    by_cases h : everyoneDone (writeState s role idx choice d df) idx <;>
      simp [h, buildTimeline]
  rw [rowAt_congr _ _ hdata, rowAt_writeState_self s role idx choice d df hdf hidx]

/-- The state after the Dedicated-Gate submission of Airport Operations
in a fresh game: one decided cell, round still 1. -/
def s1 : GameState := (record s0 ROLE0 0 (labelOf ROLE0 true) ⟨0, false⟩).getD s0

end Aeroflow

/-- C4: once a role has a decision for the active round, the Play tab's
submission path rejects a re-submission: `record` is never invoked (the
guard shows "Decision already submitted."), no state is produced, and
the session state - in particular the record's duration, cost and note -
is exactly what it was. -/
theorem C4_resubmission_rejected (s : Aeroflow.GameState) (role : String)
    (first : Bool) (d : Aeroflow.Draw) (c : String)
    (hc : Aeroflow.decisionAt s role (s.round - 1) = some c) (hne : c ≠ "-") :
    Aeroflow.submitDecision s role first d = none ∧
    (Aeroflow.submitDecision s role first d).getD s = s := by
  have h : Aeroflow.submitDecision s role first d = none := by
    simp [Aeroflow.submitDecision, hc, hne]
  exact ⟨h, by rw [h]; rfl⟩

/-- Witness for C4: in `s1` Airport Operations has already decided round
1; a second submission for that role and round is rejected. -/
theorem C4_witness :
    Aeroflow.submitDecision Aeroflow.s1 Aeroflow.ROLE0 true ⟨3, false⟩ = none ∧
    (Aeroflow.submitDecision Aeroflow.s1 Aeroflow.ROLE0 true ⟨3, false⟩).getD
      Aeroflow.s1 = Aeroflow.s1 :=
  C4_resubmission_rejected Aeroflow.s1 Aeroflow.ROLE0 true ⟨3, false⟩
    "AODB: Dedicated Stand ($500 - gate always available)" (by decide) (by decide)

/-- C5 counterexample: the choice string "bogus option" is neither of the
two Airport Operations labels, yet `record` accepts it and writes it into
the ledger - an invalid choice is not rejected and the state mutates. -/
theorem C5_counterexample :
    ((Aeroflow.record Aeroflow.s0 Aeroflow.ROLE0 0 "bogus option"
        ⟨0, false⟩).bind (fun u => Aeroflow.decisionAt u Aeroflow.ROLE0 0)) =
      some "bogus option" ∧
    "bogus option" ≠ (Aeroflow.optionLabels Aeroflow.ROLE0).1 ∧
    "bogus option" ≠ (Aeroflow.optionLabels Aeroflow.ROLE0).2 := by
  exact ⟨rfl, by decide, by decide⟩

/-- C5 (amended): a submission naming an unknown role is rejected before
any mutation (the `data[role]` dict lookup raises `KeyError`, modelled as
`none`, with no write performed), but an invalid choice string is NOT
rejected: for each of the three roles, any choice lacking that role's
branch keyword ("Dedicated" / "Quick" / "Fix Now") is silently recorded
as the role's second option (Shared Gate / Buffered Swap / Defer). -/
theorem C5_validation (s : Aeroflow.GameState) (role choice : String)
    (idx : Nat) (d : Aeroflow.Draw)
    (df0 df1 df2 : List Aeroflow.RoundRecord)
    (hrole : s.data.lookup role = none)
    (hdf0 : s.data.lookup Aeroflow.ROLE0 = some df0) (hidx0 : idx < df0.length)
    (hdf1 : s.data.lookup Aeroflow.ROLE1 = some df1) (hidx1 : idx < df1.length)
    (hdf2 : s.data.lookup Aeroflow.ROLE2 = some df2) (hidx2 : idx < df2.length)
    (hch0 : Aeroflow.strContains choice "Dedicated" = false)
    (hch1 : Aeroflow.strContains choice "Quick" = false)
    (hch2 : Aeroflow.strContains choice "Fix Now" = false) :
    Aeroflow.record s role idx choice d = none ∧
    ((Aeroflow.record s Aeroflow.ROLE0 idx choice d).bind
        (fun u => Aeroflow.rowAt u Aeroflow.ROLE0 idx)) =
      some ⟨choice, Aeroflow.GATE_SHR + (if d.roll then d.extra else 0), 0,
            "Shared stand" ++
              (if d.roll then " +" ++ toString d.extra ++ " wait" else "")⟩ ∧
    ((Aeroflow.record s Aeroflow.ROLE1 idx choice d).bind
        (fun u => Aeroflow.rowAt u Aeroflow.ROLE1 idx)) =
      some ⟨choice, Aeroflow.CREW_B10, 0, "Buffered swap"⟩ ∧
    ((Aeroflow.record s Aeroflow.ROLE2 idx choice d).bind
        (fun u => Aeroflow.rowAt u Aeroflow.ROLE2 idx)) =
      some ⟨choice, Aeroflow.MX_DEF,
            (if d.roll then Aeroflow.MX_PENALTY else 0),
            "Deferred" ++ (if d.roll then " penalty 1000" else "")⟩ := by
  refine ⟨by simp [Aeroflow.record, hrole], ?_, ?_, ?_⟩
  · rw [Aeroflow.rowAt_record s Aeroflow.ROLE0 idx choice d df0 hdf0 hidx0]
    simp [Aeroflow.applyChoice, hch0]
  · rw [Aeroflow.rowAt_record s Aeroflow.ROLE1 idx choice d df1 hdf1 hidx1]
    simp [Aeroflow.applyChoice, hch1,
      show (Aeroflow.ROLE1 == Aeroflow.ROLE0) = false from by decide]
  · rw [Aeroflow.rowAt_record s Aeroflow.ROLE2 idx choice d df2 hdf2 hidx2]
    simp [Aeroflow.applyChoice, hch2,
      show (Aeroflow.ROLE2 == Aeroflow.ROLE0) = false from by decide,
      show (Aeroflow.ROLE2 == Aeroflow.ROLE1) = false from by decide]

/-- Witness for the amended C5: unknown role "Pilot" is rejected; the
invalid choice "totally bogus" is recorded for each role as its second
option (clash and penalty rolls drawn): shared gate +4 minutes, buffered
swap, deferred with the 1000 penalty. -/
theorem C5_witness :
    Aeroflow.record Aeroflow.s0 "Pilot" 0 "totally bogus" ⟨4, true⟩ = none ∧
    ((Aeroflow.record Aeroflow.s0 Aeroflow.ROLE0 0 "totally bogus"
        ⟨4, true⟩).bind (fun u => Aeroflow.rowAt u Aeroflow.ROLE0 0)) =
      some ⟨"totally bogus", Aeroflow.GATE_SHR + 4, 0, "Shared stand +4 wait"⟩ ∧
    ((Aeroflow.record Aeroflow.s0 Aeroflow.ROLE1 0 "totally bogus"
        ⟨4, true⟩).bind (fun u => Aeroflow.rowAt u Aeroflow.ROLE1 0)) =
      some ⟨"totally bogus", Aeroflow.CREW_B10, 0, "Buffered swap"⟩ ∧
    ((Aeroflow.record Aeroflow.s0 Aeroflow.ROLE2 0 "totally bogus"
        ⟨4, true⟩).bind (fun u => Aeroflow.rowAt u Aeroflow.ROLE2 0)) =
      some ⟨"totally bogus", Aeroflow.MX_DEF, Aeroflow.MX_PENALTY,
            "Deferred penalty 1000"⟩ :=
  C5_validation Aeroflow.s0 "Pilot" "totally bogus" 0 ⟨4, true⟩
    Aeroflow.initTable Aeroflow.initTable Aeroflow.initTable
    (by decide) (by decide) (by decide) (by decide) (by decide) (by decide)
    (by decide) (by decide) (by decide) (by decide)

namespace Aeroflow

/-- One user interaction on the Play tab: the clicked submission if the
guard lets it through, otherwise the state is left as is. -/
def playStep (s : GameState) (role : String) (first : Bool) (d : Draw) :
    GameState :=
  (submitDecision s role first d).getD s

/-- Fresh game after Airport Operations picked the Dedicated Stand and
Airline Control picked the Buffered Swap for round 1: two of the three
round-1 decisions are in. -/
def sTwo : GameState :=
  playStep (playStep s0 ROLE0 true ⟨0, false⟩) ROLE1 false ⟨0, false⟩

end Aeroflow

/-- C8: when the ledger write performed by `record` completes its round
(all three roles now decided for `idx`), the engine stores that round's
freshly built timeline board and advances the round pointer to
`min(idx + 2, ROUNDS)`; when the round is still incomplete, the pointer
and the whole timeline list are unchanged. -/
theorem C8_round_advance (s : Aeroflow.GameState) (role choice : String)
    (idx : Nat) (d : Aeroflow.Draw) (df : List Aeroflow.RoundRecord)
    (hdf : s.data.lookup role = some df) (hidx : idx < s.timeline.length) :
    (Aeroflow.everyoneDone (Aeroflow.writeState s role idx choice d df) idx = true →
      (Aeroflow.record s role idx choice d).map (fun u => u.round) =
        some (min (idx + 2) Aeroflow.ROUNDS) ∧
      (Aeroflow.record s role idx choice d).map
          (fun u => u.timeline.getD idx none) =
        some (some (Aeroflow.rowsFrom
          (Aeroflow.durOf (Aeroflow.writeState s role idx choice d df) idx)
          ((s.events.getD idx ("", 0)).2)))) ∧
    (Aeroflow.everyoneDone (Aeroflow.writeState s role idx choice d df) idx = false →
      (Aeroflow.record s role idx choice d).map (fun u => u.round) = some s.round ∧
      (Aeroflow.record s role idx choice d).map (fun u => u.timeline) =
        some s.timeline) := by
  rw [Aeroflow.record_eq s role idx choice d df hdf]
  constructor
  · intro h
    refine ⟨by simp [h], ?_⟩
    simp only [h, if_true, Option.map_some, Option.some.injEq]
    simp [Aeroflow.buildTimeline, List.getD_eq_getElem?_getD, List.getElem?_set,
      hidx, Aeroflow.writeState]
  · intro h
    rw [h]
    exact ⟨by simp [Aeroflow.writeState], by simp [Aeroflow.writeState]⟩

/-- Witness for C8: the Fix-Now submission of Aircraft Maintenance
completes round 1 of `sTwo`; the pointer moves to round 2 and the round-1
board is stored. -/
theorem C8_witness :
    Aeroflow.everyoneDone
      (Aeroflow.writeState Aeroflow.sTwo Aeroflow.ROLE2 0
        "MEL: Fix Now (+20 min, $300)" ⟨0, false⟩ Aeroflow.initTable) 0 = true ∧
    ((Aeroflow.record Aeroflow.sTwo Aeroflow.ROLE2 0
        "MEL: Fix Now (+20 min, $300)" ⟨0, false⟩).map (fun u => u.round) =
      some (min (0 + 2) Aeroflow.ROUNDS) ∧
    (Aeroflow.record Aeroflow.sTwo Aeroflow.ROLE2 0
        "MEL: Fix Now (+20 min, $300)" ⟨0, false⟩).map
        (fun u => u.timeline.getD 0 none) =
      some (some (Aeroflow.rowsFrom
        (Aeroflow.durOf (Aeroflow.writeState Aeroflow.sTwo Aeroflow.ROLE2 0
          "MEL: Fix Now (+20 min, $300)" ⟨0, false⟩ Aeroflow.initTable) 0)
        ((Aeroflow.sTwo.events.getD 0 ("", 0)).2)))) :=
  ⟨by decide,
    (C8_round_advance Aeroflow.sTwo Aeroflow.ROLE2 "MEL: Fix Now (+20 min, $300)"
      0 ⟨0, false⟩ Aeroflow.initTable (by decide) (by decide)).1 (by decide)⟩

/-- C7: after "Reset Game" every ledger row is the undecided sentinel
(decision "-", duration 0, cost 0, empty note), the round pointer is 1,
and the event sequence is a fresh draw of `ROUNDS` pairwise-distinct
cards from the fixed deck (`random.sample` draws without replacement). -/
theorem C7_reset_state (picks : List Nat) (hn : picks.Nodup)
    (hl : picks.length = Aeroflow.ROUNDS)
    (hb : ∀ i ∈ picks, i < Aeroflow.EVENT_CARDS.length) :
    (∀ r ∈ Aeroflow.ROLES, Aeroflow.tableOf (Aeroflow.resetGame picks) r =
        some (List.replicate Aeroflow.ROUNDS Aeroflow.initRecord)) ∧
    Aeroflow.initRecord = ⟨"-", 0, 0, ""⟩ ∧
    (Aeroflow.resetGame picks).round = 1 ∧
    (Aeroflow.resetGame picks).events.length = Aeroflow.ROUNDS ∧
    (Aeroflow.resetGame picks).events.Nodup ∧
    (∀ e ∈ (Aeroflow.resetGame picks).events, e ∈ Aeroflow.EVENT_CARDS) ∧
    (Aeroflow.resetGame picks).timeline = List.replicate Aeroflow.ROUNDS none := by
  have hinj : ∀ i < Aeroflow.EVENT_CARDS.length, ∀ j < Aeroflow.EVENT_CARDS.length,
      Aeroflow.EVENT_CARDS.getD i ("", 0) = Aeroflow.EVENT_CARDS.getD j ("", 0) →
      i = j := by decide
  have hmem : ∀ i < Aeroflow.EVENT_CARDS.length,
      Aeroflow.EVENT_CARDS.getD i ("", 0) ∈ Aeroflow.EVENT_CARDS := by decide
  refine ⟨?_, rfl, rfl, ?_, ?_, ?_, rfl⟩
  · intro r hr
    simp only [Aeroflow.ROLES, List.mem_cons, List.not_mem_nil, or_false] at hr
    rcases hr with rfl | rfl | rfl <;> rfl
  · simp [Aeroflow.resetGame, Aeroflow.initState, Aeroflow.sampleEvents, hl]
  · exact List.Nodup.map_on
      (fun x hx y hy hxy => hinj x (hb x hx) y (hb y hy) hxy) hn
  · intro e he
    simp only [Aeroflow.resetGame, Aeroflow.initState, Aeroflow.sampleEvents,
      List.mem_map] at he
    obtain ⟨i, hi, rfl⟩ := he
    exact hmem i (hb i hi)

/-- Witness for C7 at the concrete draw of deck indices 0..4. -/
theorem C7_witness :
    (∀ r ∈ Aeroflow.ROLES, Aeroflow.tableOf (Aeroflow.resetGame Aeroflow.picks0) r =
        some (List.replicate Aeroflow.ROUNDS Aeroflow.initRecord)) ∧
    Aeroflow.initRecord = ⟨"-", 0, 0, ""⟩ ∧
    (Aeroflow.resetGame Aeroflow.picks0).round = 1 ∧
    (Aeroflow.resetGame Aeroflow.picks0).events.length = Aeroflow.ROUNDS ∧
    (Aeroflow.resetGame Aeroflow.picks0).events.Nodup ∧
    (∀ e ∈ (Aeroflow.resetGame Aeroflow.picks0).events, e ∈ Aeroflow.EVENT_CARDS) ∧
    (Aeroflow.resetGame Aeroflow.picks0).timeline =
      List.replicate Aeroflow.ROUNDS none :=
  C7_reset_state Aeroflow.picks0 (by decide) (by decide) (by decide)

namespace Aeroflow

/-- On a gap-free timeline the `break` never triggers; the loop total is
the sum of every round's fine. -/
theorem finesAux_all_some (l : List (Option Board))
    (h : l.all Option.isSome = true) :
    finesAux l = ((List.range l.length).map
      (fun i => boardFine ((l.getD i none).getD []))).sum := by
  induction l with
  | nil => simp [finesAux]
  | cons a t ih =>
    simp only [List.all_cons, Bool.and_eq_true] at h
    obtain ⟨ha, ht⟩ := h
    rcases a with _ | b
    · simp at ha
    · rw [List.length_cons, List.range_succ_eq_map]
      simp only [List.map_cons, List.map_map, List.sum_cons]
      rw [finesAux, ih ht]
      rfl

/-- The loop of `compute_time_fines` only sees the longest all-`some`
prefix of the timeline. -/
theorem finesAux_eq_takeWhile (l : List (Option Board)) :
    finesAux l = finesAux (l.takeWhile Option.isSome) := by
  induction l with
  | nil => rfl
  | cons a t ih =>
    rcases a with _ | b
    · simp [finesAux, List.takeWhile_cons, Option.isSome]
    · simp [finesAux, List.takeWhile_cons, Option.isSome, ih]

/-- Entries behind an absent board never contribute: setting index `k`
changes nothing when some earlier index `j` holds `none`. -/
theorem finesAux_set_of_gap (l : List (Option Board)) (j k : Nat)
    (x : Option Board) (hjk : j < k) (hj : l.getD j none = none) :
    finesAux (l.set k x) = finesAux l := by
  induction l generalizing j k with
  | nil => rfl
  | cons a t ih =>
    rcases k with _ | k
    · omega
    rcases j with _ | j
    · have ha : a = none := by simpa [List.getD] using hj
      subst ha
      simp [finesAux]
    · rcases a with _ | b
      · simp [finesAux]
      · have hj' : t.getD j none = none := by simpa [List.getD] using hj
        simp only [List.set, finesAux]
        rw [ih j k (by omega) hj']

/-- A finished game whose five boards all end at minute 50. -/
def s9 : GameState :=
  { data := ROLES.map (fun r => (r, initTable)),
    events := sampleEvents picks0,
    timeline := List.replicate ROUNDS (some [("x", 0, 50)]),
    round := ROUNDS,
    rolePick := ROLE0 }

end Aeroflow

/-- C9: in the end-of-game scoreboard every role's time-fines entry is
the same full team fine summed over all rounds (the fine is charged in
full to each role, not split), so the Total column counts the team fine
three times across the three roles. -/
theorem C9_full_fine_each_role (s : Aeroflow.GameState)
    (hl : s.timeline.length = Aeroflow.ROUNDS)
    (hf : Aeroflow.finished s = true) :
    (∀ row ∈ Aeroflow.summaryRows s,
        row.2.2.1 = Aeroflow.computeTimeFines s none) ∧
    ((Aeroflow.summaryRows s).map (fun row => row.2.2.1)).sum =
      3 * Aeroflow.computeTimeFines s none := by
  have hteam : Aeroflow.teamFinesAll s = Aeroflow.computeTimeFines s none := by
    unfold Aeroflow.teamFinesAll Aeroflow.computeTimeFines
    simp only [Option.getD_none, List.take_length]
    rw [Aeroflow.finesAux_all_some s.timeline hf, hl]
  constructor
  · intro row hrow
    simp only [Aeroflow.summaryRows, Aeroflow.ROLES, List.map_cons,
      List.map_nil, List.mem_cons, List.not_mem_nil, or_false] at hrow
    rcases hrow with rfl | rfl | rfl <;> exact hteam
  · simp only [Aeroflow.summaryRows, Aeroflow.ROLES, List.map_cons,
      List.map_nil, List.sum_cons, List.sum_nil]
    rw [hteam]; ring

/-- Witness for C9: a finished game whose five boards all end at minute
50 gives every role the same 5 x 500 = 2500 time-fines figure. -/
theorem C9_witness :
    ((∀ row ∈ Aeroflow.summaryRows Aeroflow.s9,
        row.2.2.1 = Aeroflow.computeTimeFines Aeroflow.s9 none) ∧
    ((Aeroflow.summaryRows Aeroflow.s9).map (fun row => row.2.2.1)).sum =
      3 * Aeroflow.computeTimeFines Aeroflow.s9 none) ∧
    Aeroflow.computeTimeFines Aeroflow.s9 none = 2500 :=
  ⟨C9_full_fine_each_role Aeroflow.s9 (by decide) (by decide), by decide⟩

/-- C10: `compute_time_fines` scans boards in ascending round order and
stops at the first absent board, so a later computed board behind a gap
is excluded: its entry can be replaced by anything without changing the
total, and the total is exactly the fine sum of the all-`some` prefix. -/
theorem C10_fines_stop_at_gap (s : Aeroflow.GameState) (j k : Nat)
    (b : Aeroflow.Board) (hjk : j < k)
    (hj : s.timeline.getD j none = none) :
    Aeroflow.computeTimeFines
        { s with timeline := s.timeline.set k (some b) } none =
      Aeroflow.computeTimeFines s none ∧
    Aeroflow.computeTimeFines s none =
      Aeroflow.finesAux (s.timeline.takeWhile Option.isSome) := by
  constructor
  · simp only [Aeroflow.computeTimeFines, Option.getD_none, List.take_length]
    exact Aeroflow.finesAux_set_of_gap s.timeline j k (some b) hjk hj
  · simp only [Aeroflow.computeTimeFines, Option.getD_none, List.take_length]
    exact Aeroflow.finesAux_eq_takeWhile s.timeline

/-- Witness for C10: in a fresh game, force a round-2 board ending at
minute 60 behind the absent round-1 board; its 1500 fine is excluded and
the cumulative total stays 0. -/
theorem C10_witness :
    (Aeroflow.computeTimeFines
        { Aeroflow.s0 with
          timeline := Aeroflow.s0.timeline.set 1 (some [("x", 0, 60)]) } none =
      Aeroflow.computeTimeFines Aeroflow.s0 none ∧
    Aeroflow.computeTimeFines Aeroflow.s0 none =
      Aeroflow.finesAux (Aeroflow.s0.timeline.takeWhile Option.isSome)) ∧
    Aeroflow.computeTimeFines Aeroflow.s0 none = 0 ∧
    Aeroflow.boardFine [("x", 0, 60)] = 1500 :=
  ⟨C10_fines_stop_at_gap Aeroflow.s0 0 1 [("x", 0, 60)] (by decide) (by decide),
    by decide, by decide⟩

namespace Aeroflow

/-! ### The session as a transition system

The app mutates `st.session_state` in exactly four places: a guarded
decision submission on the Play tab, the selectbox writing `role_pick`,
and the two instructor controls "Next Flight" and "Reset Game". -/

inductive Step : GameState → GameState → Prop where
  | submit (s : GameState) (role : String) (first : Bool) (d : Draw)
      (s' : GameState) (hrole : role ∈ ROLES)
      (hs : submitDecision s role first d = some s') : Step s s'
  | pick (s : GameState) (role : String) (hrole : role ∈ ROLES) :
      Step s { s with rolePick := role }
  | next (s : GameState) : Step s (nextFlight s)
  | reset (s : GameState) (picks : List Nat) (hn : picks.Nodup)
      (hl : picks.length = ROUNDS)
      (hb : ∀ i ∈ picks, i < EVENT_CARDS.length) : Step s (resetGame picks)

inductive Reachable : GameState → Prop where
  | init (picks : List Nat) (hn : picks.Nodup) (hl : picks.length = ROUNDS)
      (hb : ∀ i ∈ picks, i < EVENT_CARDS.length) :
      Reachable (initState (sampleEvents picks))
  | step (s s' : GameState) (hr : Reachable s) (hs : Step s s') : Reachable s'

/-- The decision string stored at row `i` of a ledger (the `"-"` default
only fires off the table). -/
def decOf (t : List RoundRecord) (i : Nat) : String :=
  ((t[i]?).map (·.decision)).getD "-"

/-- The invariant carried by every reachable session state: the ledger
dict holds exactly the three role keys, the timeline list keeps its
initial length, and a stored board certifies its round was complete. -/
def Inv (s : GameState) : Prop :=
  (∃ t0 t1 t2, s.data = [(ROLE0, t0), (ROLE1, t1), (ROLE2, t2)]) ∧
  s.timeline.length = ROUNDS ∧
  ∀ i, (s.timeline.getD i none).isSome = true → everyoneDone s i = true

/-! ### Lookup and update on the three-role dictionary -/

theorem lookup_shape0 (t0 t1 t2 : List RoundRecord) :
    List.lookup ROLE0 [(ROLE0, t0), (ROLE1, t1), (ROLE2, t2)] = some t0 := by
  simp [lookup_cons_eq]

theorem lookup_shape1 (t0 t1 t2 : List RoundRecord) :
    List.lookup ROLE1 [(ROLE0, t0), (ROLE1, t1), (ROLE2, t2)] = some t1 := by
  simp [lookup_cons_eq, show (ROLE1 : String) ≠ ROLE0 from by decide]

theorem lookup_shape2 (t0 t1 t2 : List RoundRecord) :
    List.lookup ROLE2 [(ROLE0, t0), (ROLE1, t1), (ROLE2, t2)] = some t2 := by
  simp [lookup_cons_eq, show (ROLE2 : String) ≠ ROLE0 from by decide,
    show (ROLE2 : String) ≠ ROLE1 from by decide]

theorem updateAssoc_shape0 (t0 t1 t2 v : List RoundRecord) :
    updateAssoc [(ROLE0, t0), (ROLE1, t1), (ROLE2, t2)] ROLE0 v =
      [(ROLE0, v), (ROLE1, t1), (ROLE2, t2)] := by
  simp [updateAssoc, show (ROLE1 : String) ≠ ROLE0 from by decide,
    show (ROLE2 : String) ≠ ROLE0 from by decide]

theorem updateAssoc_shape1 (t0 t1 t2 v : List RoundRecord) :
    updateAssoc [(ROLE0, t0), (ROLE1, t1), (ROLE2, t2)] ROLE1 v =
      [(ROLE0, t0), (ROLE1, v), (ROLE2, t2)] := by
  simp [updateAssoc, show (ROLE0 : String) ≠ ROLE1 from by decide,
    show (ROLE2 : String) ≠ ROLE1 from by decide]

theorem updateAssoc_shape2 (t0 t1 t2 v : List RoundRecord) :
    updateAssoc [(ROLE0, t0), (ROLE1, t1), (ROLE2, t2)] ROLE2 v =
      [(ROLE0, t0), (ROLE1, t1), (ROLE2, v)] := by
  simp [updateAssoc, show (ROLE0 : String) ≠ ROLE2 from by decide,
    show (ROLE1 : String) ≠ ROLE2 from by decide]

/-- `everyone_done` through the three ledgers. -/
theorem everyoneDone_eq_true_iff (s : GameState) (t0 t1 t2 : List RoundRecord)
    (h : s.data = [(ROLE0, t0), (ROLE1, t1), (ROLE2, t2)]) (i : Nat) :
    everyoneDone s i = true ↔
      (decOf t0 i ≠ "-" ∧ decOf t1 i ≠ "-" ∧ decOf t2 i ≠ "-") := by
  simp [everyoneDone, ROLES, decisionAt, rowAt, tableOf, h, lookup_shape0,
    lookup_shape1, lookup_shape2, decOf, bne_iff_ne]

theorem everyoneDone_congr (s u : GameState) (h : s.data = u.data) (i : Nat) :
    everyoneDone s i = everyoneDone u i := by
  simp [everyoneDone, decisionAt, rowAt, tableOf, h]

end Aeroflow

namespace Aeroflow

/-- Overwriting one ledger cell with a non-sentinel decision cannot make
a complete round incomplete. -/
theorem decOf_set_ne_dash (t : List RoundRecord) (idx i : Nat)
    (rec : RoundRecord) (hrec : rec.decision ≠ "-")
    (hold : decOf t i ≠ "-") : decOf (t.set idx rec) i ≠ "-" := by
  by_cases hij : idx = i
  · subst hij
    by_cases hlen : idx < t.length
    · simp [decOf, List.getElem?_set, hlen, hrec]
    · have hnone : t[idx]? = none := List.getElem?_eq_none (Nat.le_of_not_lt hlen)
      exact absurd (by simp [decOf, hnone]) hold
  · simpa [decOf, List.getElem?_set_ne hij] using hold

theorem everyoneDone_write_mono (s : GameState) (t0 t1 t2 : List RoundRecord)
    (h : s.data = [(ROLE0, t0), (ROLE1, t1), (ROLE2, t2)]) (role : String)
    (hrole : role ∈ ROLES) (idx : Nat) (choice : String) (hne : choice ≠ "-")
    (d : Draw) (df : List RoundRecord) (hdf : s.data.lookup role = some df)
    (i : Nat) (hdone : everyoneDone s i = true) :
    everyoneDone (writeState s role idx choice d df) i = true := by
  have hR : role = ROLE0 ∨ role = ROLE1 ∨ role = ROLE2 := by
    simpa [ROLES] using hrole
  rw [everyoneDone_eq_true_iff s t0 t1 t2 h i] at hdone
  obtain ⟨h0, h1, h2⟩ := hdone
  rcases hR with rfl | rfl | rfl
  · have hdf0 : df = t0 := by
      rw [h, lookup_shape0] at hdf; exact (Option.some.inj hdf).symm
    rw [hdf0]
    have hdata : (writeState s ROLE0 idx choice d t0).data =
        [(ROLE0, t0.set idx ⟨choice, (applyChoice ROLE0 choice d).1,
            (applyChoice ROLE0 choice d).2.1, (applyChoice ROLE0 choice d).2.2⟩),
         (ROLE1, t1), (ROLE2, t2)] := by
      simp [writeState, h, updateAssoc_shape0]
    rw [everyoneDone_eq_true_iff _ _ _ _ hdata i]
    exact ⟨decOf_set_ne_dash _ _ _ _ hne h0, h1, h2⟩
  · have hdf1 : df = t1 := by
      rw [h, lookup_shape1] at hdf; exact (Option.some.inj hdf).symm
    rw [hdf1]
    have hdata : (writeState s ROLE1 idx choice d t1).data =
        [(ROLE0, t0),
         (ROLE1, t1.set idx ⟨choice, (applyChoice ROLE1 choice d).1,
            (applyChoice ROLE1 choice d).2.1, (applyChoice ROLE1 choice d).2.2⟩),
         (ROLE2, t2)] := by
      simp [writeState, h, updateAssoc_shape1]
    rw [everyoneDone_eq_true_iff _ _ _ _ hdata i]
    exact ⟨h0, decOf_set_ne_dash _ _ _ _ hne h1, h2⟩
  · have hdf2 : df = t2 := by
      rw [h, lookup_shape2] at hdf; exact (Option.some.inj hdf).symm
    rw [hdf2]
    have hdata : (writeState s ROLE2 idx choice d t2).data =
        [(ROLE0, t0), (ROLE1, t1),
         (ROLE2, t2.set idx ⟨choice, (applyChoice ROLE2 choice d).1,
            (applyChoice ROLE2 choice d).2.1, (applyChoice ROLE2 choice d).2.2⟩)] := by
      simp [writeState, h, updateAssoc_shape2]
    rw [everyoneDone_eq_true_iff _ _ _ _ hdata i]
    exact ⟨h0, h1, decOf_set_ne_dash _ _ _ _ hne h2⟩

/-- The six radio labels are never the sentinel. -/
theorem labelOf_ne_dash (role : String) (first : Bool) :
    labelOf role first ≠ "-" := by
  unfold labelOf optionLabels
  rcases first <;> by_cases h0 : (role == ROLE0) <;>
    by_cases h1 : (role == ROLE1) <;> simp [h0, h1]

theorem getD_set_ne_board (l : List (Option Board)) (k i : Nat)
    (x : Option Board) (h : k ≠ i) :
    (l.set k x).getD i none = l.getD i none := by
  rw [List.getD_eq_getElem?_getD, List.getD_eq_getElem?_getD,
    List.getElem?_set_ne h]

theorem getD_replicate_none (n i : Nat) :
    (List.replicate n (none : Option Board)).getD i none = none := by
  rw [List.getD_eq_getElem?_getD, List.getElem?_replicate]
  by_cases h : i < n <;> simp [h]

/-- Writing any ledger for one of the three roles keeps the dictionary
shape. -/
theorem writeState_shape (s : GameState) (t0 t1 t2 : List RoundRecord)
    (h : s.data = [(ROLE0, t0), (ROLE1, t1), (ROLE2, t2)]) (role : String)
    (hrole : role ∈ ROLES) (idx : Nat) (choice : String) (d : Draw)
    (df : List RoundRecord) :
    ∃ u0 u1 u2, (writeState s role idx choice d df).data =
      [(ROLE0, u0), (ROLE1, u1), (ROLE2, u2)] := by
  have hR : role = ROLE0 ∨ role = ROLE1 ∨ role = ROLE2 := by
    simpa [ROLES] using hrole
  rcases hR with rfl | rfl | rfl
  · refine ⟨df.set idx ⟨choice, (applyChoice ROLE0 choice d).1,
      (applyChoice ROLE0 choice d).2.1, (applyChoice ROLE0 choice d).2.2⟩,
      t1, t2, ?_⟩
    simp [writeState, h, updateAssoc_shape0]
  · refine ⟨t0, df.set idx ⟨choice, (applyChoice ROLE1 choice d).1,
      (applyChoice ROLE1 choice d).2.1, (applyChoice ROLE1 choice d).2.2⟩,
      t2, ?_⟩
    simp [writeState, h, updateAssoc_shape1]
  · refine ⟨t0, t1, df.set idx ⟨choice, (applyChoice ROLE2 choice d).1,
      (applyChoice ROLE2 choice d).2.1, (applyChoice ROLE2 choice d).2.2⟩, ?_⟩
    simp [writeState, h, updateAssoc_shape2]

theorem Inv_init (events : List (String × Nat)) : Inv (initState events) := by
  refine ⟨⟨initTable, initTable, initTable, rfl⟩,
    by simp [initState, List.length_replicate], ?_⟩
  intro i hi
  rw [show (initState events).timeline = List.replicate ROUNDS none from rfl,
    getD_replicate_none] at hi
  simp at hi

theorem Inv_step (s s' : GameState) (hs : Step s s') (hInv : Inv s) :
    Inv s' := by
  obtain ⟨⟨t0, t1, t2, hshape⟩, hlen, hdone⟩ := hInv
  cases hs with
  | pick role hrole => exact ⟨⟨t0, t1, t2, hshape⟩, hlen, hdone⟩
  | next => exact ⟨⟨t0, t1, t2, hshape⟩, hlen, hdone⟩
  | reset picks hn hl hb => exact Inv_init _
  | submit role first d s2 hrole hsub =>
    unfold submitDecision at hsub
    by_cases hguard : ((decisionAt s role (s.round - 1)).getD "" == "-")
    case neg => rw [if_neg hguard] at hsub; cases hsub
    case pos =>
    rw [if_pos hguard] at hsub
    rcases hlk : s.data.lookup role with _ | df
    · simp [record, hlk] at hsub
    rw [record_eq s role (s.round - 1) (labelOf role first) d df hlk] at hsub
    have hs' := (Option.some.inj hsub).symm
    have hne := labelOf_ne_dash role first
    have hmono := fun i hi => everyoneDone_write_mono s t0 t1 t2 hshape role
      hrole (s.round - 1) (labelOf role first) hne d df hlk i hi
    obtain ⟨u0, u1, u2, hshape2⟩ := writeState_shape s t0 t1 t2 hshape role
      hrole (s.round - 1) (labelOf role first) d df
    by_cases hED : everyoneDone
        (writeState s role (s.round - 1) (labelOf role first) d df)
        (s.round - 1) = true
    · rw [hs', if_pos hED]
      refine ⟨⟨u0, u1, u2, by simpa [buildTimeline] using hshape2⟩,
        by simpa [buildTimeline, List.length_set, writeState] using hlen, ?_⟩
      intro i hi
      have hcongr : ∀ j, everyoneDone
          { buildTimeline (writeState s role (s.round - 1)
              (labelOf role first) d df) (s.round - 1) with
            round := min (s.round - 1 + 2) ROUNDS, rolePick := ROLE0 } j =
          everyoneDone (writeState s role (s.round - 1)
              (labelOf role first) d df) j :=
        fun j => everyoneDone_congr _ _ (by simp [buildTimeline]) j
      rw [hcongr]
      by_cases hij : i = s.round - 1
      · subst hij; exact hED
      · apply hmono
        apply hdone
        rw [show ({ buildTimeline (writeState s role (s.round - 1)
              (labelOf role first) d df) (s.round - 1) with
            round := min (s.round - 1 + 2) ROUNDS,
            rolePick := ROLE0 } : GameState).timeline =
            s.timeline.set (s.round - 1)
              (some (rowsFrom (durOf (writeState s role (s.round - 1)
                (labelOf role first) d df) (s.round - 1))
                (((writeState s role (s.round - 1) (labelOf role first) d
                    df).events.getD (s.round - 1) ("", 0)).2))) from rfl,
          getD_set_ne_board _ _ _ _ (fun e => hij e.symm)] at hi
        exact hi
    · rw [hs', if_neg hED]
      refine ⟨⟨u0, u1, u2, hshape2⟩,
        by simpa [writeState] using hlen, ?_⟩
      intro i hi
      apply hmono
      apply hdone
      rwa [show (writeState s role (s.round - 1) (labelOf role first) d
          df).timeline = s.timeline from rfl] at hi

theorem Inv_reachable (s : GameState) (h : Reachable s) : Inv s := by
  induction h with
  | init picks hn hl hb => exact Inv_init _
  | step s s' hr hs ih => exact Inv_step s s' hs ih

end Aeroflow

namespace Aeroflow

def noRisk : Draw := ⟨0, false⟩

/-- One full round of no-risk play: Dedicated Stand, Buffered Swap,
Fix Now. -/
def playRound (s : GameState) : GameState :=
  playStep (playStep (playStep s ROLE0 true noRisk) ROLE1 false noRisk)
    ROLE2 true noRisk

/-- The session after five complete rounds of no-risk play. -/
def sEnd : GameState :=
  playRound (playRound (playRound (playRound (playRound s0))))

theorem reachable_playStep (s : GameState) (h : Reachable s) (role : String)
    (hrole : role ∈ ROLES) (first : Bool) (d : Draw) :
    Reachable (playStep s role first d) := by
  unfold playStep
  rcases hs : submitDecision s role first d with _ | s'
  · exact h
  · exact Reachable.step s s' h (Step.submit s role first d s' hrole hs)

theorem reachable_playRound (s : GameState) (h : Reachable s) :
    Reachable (playRound s) :=
  reachable_playStep _ (reachable_playStep _ (reachable_playStep _ h ROLE0
    (by decide) true noRisk) ROLE1 (by decide) false noRisk) ROLE2
    (by decide) true noRisk

theorem reachable_sEnd : Reachable sEnd :=
  reachable_playRound _ (reachable_playRound _ (reachable_playRound _
    (reachable_playRound _ (reachable_playRound _
      (Reachable.init picks0 (by decide) (by decide) (by decide))))))

end Aeroflow

/-- C6: in every reachable session state the game-over flag (`finished`,
i.e. all five timeline boards present) implies that all three roles have
decided every one of the five rounds - in particular it cannot be true
before round 5's three decisions are all in, since a board is only ever
stored for a round whose three decisions exist and decisions are never
un-made short of a full reset. -/
theorem C6_game_over_only_when_all_decided (s : Aeroflow.GameState)
    (h : Aeroflow.Reachable s) (hf : Aeroflow.finished s = true) :
    ∀ i < Aeroflow.ROUNDS, Aeroflow.everyoneDone s i = true := by
  obtain ⟨_, hlen, hdone⟩ := Aeroflow.Inv_reachable s h
  intro i hi
  apply hdone
  have hi' : i < s.timeline.length := by omega
  rw [List.getD_eq_getElem?_getD, List.getElem?_eq_getElem hi']
  exact List.all_eq_true.mp hf _ (List.getElem_mem hi')

set_option maxRecDepth 100000 in
/-- Witness for C6: the five-round no-risk play-through ends with the
flag set and every round fully decided. -/
theorem C6_witness :
    Aeroflow.finished Aeroflow.sEnd = true ∧
    ∀ i < Aeroflow.ROUNDS, Aeroflow.everyoneDone Aeroflow.sEnd i = true :=
  ⟨by decide,
    C6_game_over_only_when_all_decided Aeroflow.sEnd Aeroflow.reachable_sEnd
      (by decide)⟩
